import Mathlib

/-!
Verification of the Liora backend's Analysis Lifecycle Engine
(`backend/handlers/analysis.go`, `backend/models/analysis.go`).

The Go code is shallowly embedded: Go `float64` values are modelled as
rationals (`ℚ`), Go `int` as `ℤ`, Go maps keyed by strings as association
lists, and `time.Time` timestamps as `ℕ`.  The unseeded randomness used by
the mock generators (`rand.Float64`, `rand.Intn`) is made explicit as
parameters: each call site of `rand.Float64()` becomes a rational in
`[0, 1)` and each `rand.Intn 3` becomes a `Fin 3` index, bundled in a
`RandSource` record.  HTTP handlers become functions returning
`Except HandlerError _`, with `HandlerError` distinguishing the
`ValidationErrorResponse` (HTTP 400) and `NotFoundResponse` (HTTP 404)
helpers of `backend/utils/response.go`.
-/

namespace Liora

/-- `models.AnalysisStatus` constants from `backend/models/analysis.go`. -/
inductive AnalysisStatus where
  | pending
  | processing
  | completed
  | failed
deriving DecidableEq, Repr

/-- `models.Metric`: `{Label, Value float64, Color}`. -/
structure Metric where
  label : String
  value : ℚ
  color : String
deriving DecidableEq, Repr

/-- `models.Analysis`.  Field order follows the Go struct.  In Go every
field is always present; fields not assigned at creation carry the Go zero
value (`0.0`, `""`, `nil` slices).  `CompletedAt` is a `*time.Time`
(nullable pointer), hence `Option ℕ` here. -/
structure Analysis where
  id : String
  companyID : String
  status : AnalysisStatus
  progress : ℤ
  overallScore : ℚ
  recommendation : String
  keyMetrics : List Metric
  insights : List String
  risks : List String
  createdAt : ℕ
  updatedAt : ℕ
  completedAt : Option ℕ
deriving DecidableEq, Repr

/-- `models.StartAnalysisRequest`. -/
structure StartAnalysisRequest where
  companyID : String
  fileIDs : List String
deriving DecidableEq, Repr

/-- `models.AnalysisStatusResponse`. -/
structure AnalysisStatusResponse where
  id : String
  status : AnalysisStatus
  progress : ℤ
  message : String
deriving DecidableEq, Repr

/-- Error outcomes of the handlers, from `backend/utils/response.go`:
`validationError` is `ValidationErrorResponse` (HTTP 400, body the given
message); `notFoundError` is `NotFoundResponse` (HTTP 404, body
`resource ++ " not found"`). -/
inductive HandlerError where
  | validationError (msg : String)
  | notFoundError (resource : String)
deriving DecidableEq, Repr

/-- The randomness consumed by one run of `simulateAnalysisProcessing`:
four `rand.Float64()` draws (one per metric in `generateMockMetrics`) and
two `rand.Intn(3)` draws (insight-set and risk-set selection). -/
structure RandSource where
  r1 : ℚ
  r2 : ℚ
  r3 : ℚ
  r4 : ℚ
  insightIdx : Fin 3
  riskIdx : Fin 3

/-- `generateRecommendation` from `backend/handlers/analysis.go`. -/
def generateRecommendation (score : ℚ) : String :=
  if score ≥ 8.5 then "Exceptional Investment Opportunity"
  else if score ≥ 7.5 then "Strong Investment Opportunity"
  else if score ≥ 6.5 then "Moderate Investment Potential"
  else if score ≥ 5.5 then "Proceed with Caution"
  else "High Risk Investment"

/-- The colour-adjustment loop body of `generateMockMetrics`. -/
def metricColor (v : ℚ) : String :=
  if v ≥ 8 then "text-green-600"
  else if v ≥ 6 then "text-yellow-600"
  else "text-red-600"

/-- `generateMockMetrics`: four metrics whose values are
`base + rand.Float64() * span`, colours then adjusted from the values. -/
def generateMockMetrics (r1 r2 r3 r4 : ℚ) : List Metric :=
  let metrics : List Metric :=
    [ { label := "Market Potential", value := 7 + r1 * 3, color := "text-green-600" },
      { label := "Team Strength", value := 6.5 + r2 * 3.5, color := "text-green-600" },
      { label := "Product Viability", value := 6 + r3 * 4, color := "text-yellow-600" },
      { label := "Financial Health", value := 5.5 + r4 * 4.5, color := "text-yellow-600" } ]
  metrics.map fun m => { m with color := metricColor m.value }

/-- The three candidate insight sets of `generateMockInsights`;
`rand.Intn(len(insights))` picks one whole set. -/
def insightSets : Fin 3 → List String
  | 0 => [ "Strong founding team with relevant industry experience",
           "Large addressable market with growing demand",
           "Competitive product differentiation identified",
           "Revenue growth trajectory shows positive momentum" ]
  | 1 => [ "Experienced leadership team with proven track record",
           "Innovative technology with patent protection",
           "Strong customer acquisition metrics",
           "Clear path to market expansion" ]
  | 2 => [ "Well-defined value proposition resonates with target market",
           "Solid financial projections with conservative assumptions",
           "Strategic partnerships provide competitive advantage",
           "Scalable business model with recurring revenue potential" ]

/-- The three candidate risk sets of `generateMockRisks`. -/
def riskSets : Fin 3 → List String
  | 0 => [ "High competition in target market segment",
           "Dependency on key partnerships for distribution",
           "Limited runway based on current burn rate" ]
  | 1 => [ "Regulatory challenges in target markets",
           "Customer concentration risk with top clients",
           "Technology scalability concerns at growth stage" ]
  | 2 => [ "Market timing risks for product launch",
           "Key person dependency on founders",
           "Potential intellectual property disputes" ]

/-- The in-memory `analyses` map (`map[string]models.Analysis`), modelled
as an association list; the most recent binding for a key shadows older
ones, matching Go map assignment. -/
def AReg : Type := List (String × Analysis)

/-- Go map read with comma-ok (`a, exists := analyses[id]`). -/
def lookupA : AReg → String → Option Analysis
  | [], _ => none
  | (k, v) :: rest, id => if k = id then some v else lookupA rest id

/-- Go map assignment (`analyses[id] = a`). -/
def insertA (reg : AReg) (id : String) (a : Analysis) : AReg :=
  (id, a) :: reg

/-- The file-validation loop of `StartAnalysis`: returns the first
submitted file id with no entry in `uploadedFiles` (the loop responds and
returns at the first miss), `none` when all resolve.  The `companies` and
`uploadedFiles` maps are consulted only for key existence, so they are
modelled by their key sets. -/
def firstMissingFile (uploadedFiles : List String) : List String → Option String
  | [] => none
  | f :: fs =>
      if uploadedFiles.contains f then firstMissingFile uploadedFiles fs
      else some f

/-- `StartAnalysis` from `backend/handlers/analysis.go`, after JSON
binding.  `newID` stands for the `uuid.New().String()` draw and `now` for
`time.Now()`.  Returns the handler's outcome together with the `analyses`
map as it stands when the handler returns: on a validation failure the
handler returns early and the map is untouched; on success the fresh
record is stored under `newID` and returned to the caller. -/
def StartAnalysis (companies uploadedFiles : List String) (analyses : AReg)
    (req : StartAnalysisRequest) (newID : String) (now : ℕ) :
    Except HandlerError Analysis × AReg :=
  if ¬ companies.contains req.companyID then
    (.error (.notFoundError "Company"), analyses)
  else
    match firstMissingFile uploadedFiles req.fileIDs with
    | some f => (.error (.validationError ("File " ++ f ++ " not found")), analyses)
    | none =>
        let a : Analysis :=
          { id := newID
            companyID := req.companyID
            status := .pending
            progress := 0
            overallScore := 0
            recommendation := ""
            keyMetrics := []
            insights := []
            risks := []
            createdAt := now
            updatedAt := now
            completedAt := none }
        (.ok a, insertA analyses newID a)

/-- `GetAnalysis`: 404 on an unknown id, otherwise the stored record. -/
def GetAnalysis (analyses : AReg) (id : String) : Except HandlerError Analysis :=
  match lookupA analyses id with
  | none => .error (.notFoundError "Analysis")
  | some a => .ok a

/-- The status-message switch of `GetAnalysisStatus`. -/
def statusMessage : AnalysisStatus → String
  | .pending => "Analysis queued for processing"
  | .processing => "Analysis in progress"
  | .completed => "Analysis completed successfully"
  | .failed => "Analysis failed"

/-- `GetAnalysisStatus`: 404 on an unknown id, otherwise
`{id, status, progress, message}`. -/
def GetAnalysisStatus (analyses : AReg) (id : String) :
    Except HandlerError AnalysisStatusResponse :=
  match lookupA analyses id with
  | none => .error (.notFoundError "Analysis")
  | some a =>
      .ok { id := a.id
            status := a.status
            progress := a.progress
            message := statusMessage a.status }

/-- `GetAnalysisReport`: 404 on an unknown id, 400 when the analysis has
not completed, otherwise the full record as the report payload. -/
def GetAnalysisReport (analyses : AReg) (id : String) : Except HandlerError Analysis :=
  match lookupA analyses id with
  | none => .error (.notFoundError "Analysis")
  | some a =>
      if a.status ≠ AnalysisStatus.completed then
        .error (.validationError "Analysis not completed yet")
      else .ok a

/-- The stage table of `simulateAnalysisProcessing` (status, progress);
the pacing `time.Sleep` durations do not affect the record contents. -/
def stages : List (AnalysisStatus × ℤ) :=
  [(.processing, 25), (.processing, 50), (.processing, 75), (.completed, 100)]

/-- One iteration of the `simulateAnalysisProcessing` loop, acting on the
record it read from the map: set status, progress and `UpdatedAt`; on the
completed stage additionally generate the metrics, compute
`overallScore` as their accumulated sum divided by their count, derive the
recommendation, attach insights and risks, and stamp `CompletedAt`. -/
def applyStage (rnd : RandSource) (now : ℕ) (a : Analysis)
    (st : AnalysisStatus × ℤ) : Analysis :=
  let a1 := { a with status := st.1, progress := st.2, updatedAt := now }
  if st.1 = AnalysisStatus.completed then
    let metrics := generateMockMetrics rnd.r1 rnd.r2 rnd.r3 rnd.r4
    let overall := metrics.foldl (fun acc m => acc + m.value) 0 / (metrics.length : ℚ)
    { a1 with
        overallScore := overall
        recommendation := generateRecommendation overall
        keyMetrics := metrics
        insights := insightSets rnd.insightIdx
        risks := riskSets rnd.riskIdx
        completedAt := some now }
  else a1

/-- The record created by `StartAnalysis` before it is stored: only id,
company id, status, progress and the timestamps are assigned; every other
field carries its Go zero value. -/
def initialRecord (id companyID : String) (now : ℕ) : Analysis :=
  { id := id
    companyID := companyID
    status := .pending
    progress := 0
    overallScore := 0
    recommendation := ""
    keyMetrics := []
    insights := []
    risks := []
    createdAt := now
    updatedAt := now
    completedAt := none }

/-- The sequence of values written to `analyses[id]` over one analysis's
lifetime: the creation write, then the four stage writes of its scheduler
goroutine (the sole writer for the id), at times `t1 … t4`. -/
def analysisHistory (rnd : RandSource) (t1 t2 t3 t4 : ℕ) (a0 : Analysis) :
    List Analysis :=
  List.scanl (fun a st => applyStage rnd st.2 a st.1) a0
    (stages.zip [t1, t2, t3, t4])

/-- The record after the scheduler's final (completed) write. -/
def finalRecord (rnd : RandSource) (t1 t2 t3 t4 : ℕ) (a0 : Analysis) : Analysis :=
  (stages.zip [t1, t2, t3, t4]).foldl (fun a st => applyStage rnd st.2 a st.1) a0

/-- Whether a handler outcome is a `ValidationErrorResponse` (HTTP 400). -/
def isValidationError : Except HandlerError Analysis → Bool
  | .error (.validationError _) => true
  | _ => false

/-- A fixed randomness draw (all four `rand.Float64()` results 0, both
`rand.Intn(3)` results 0), used to instantiate theorems at a concrete run. -/
def rnd0 : RandSource := ⟨0, 0, 0, 0, 0, 0⟩

/-! ### Unfolding lemmas for the scheduler -/

theorem applyStage_processing (rnd : RandSource) (now : ℕ) (a : Analysis) (p : ℤ) :
    applyStage rnd now a (AnalysisStatus.processing, p) =
      { a with
          status := .processing
          progress := p
          updatedAt := now } := by
  simp [applyStage]

theorem applyStage_completed (rnd : RandSource) (now : ℕ) (a : Analysis) (p : ℤ) :
    applyStage rnd now a (AnalysisStatus.completed, p) =
      { a with
          status := .completed
          progress := p
          updatedAt := now
          overallScore := (25 + rnd.r1 * 3 + rnd.r2 * 3.5 + rnd.r3 * 4 + rnd.r4 * 4.5) / 4
          recommendation := generateRecommendation
            ((25 + rnd.r1 * 3 + rnd.r2 * 3.5 + rnd.r3 * 4 + rnd.r4 * 4.5) / 4)
          keyMetrics := generateMockMetrics rnd.r1 rnd.r2 rnd.r3 rnd.r4
          insights := insightSets rnd.insightIdx
          risks := riskSets rnd.riskIdx
          completedAt := some now } := by
  simp [applyStage, generateMockMetrics, metricColor]
  ring_nf
  exact ⟨trivial, trivial⟩

theorem generateMockMetrics_values (r1 r2 r3 r4 : ℚ) :
    (generateMockMetrics r1 r2 r3 r4).map Metric.value =
      [7 + r1 * 3, 6.5 + r2 * 3.5, 6 + r3 * 4, 5.5 + r4 * 4.5] := by
  simp [generateMockMetrics]

theorem generateMockMetrics_length (r1 r2 r3 r4 : ℚ) :
    (generateMockMetrics r1 r2 r3 r4).length = 4 := by
  simp [generateMockMetrics]

theorem finalRecord_eq (rnd : RandSource) (t1 t2 t3 t4 : ℕ) (a0 : Analysis) :
    finalRecord rnd t1 t2 t3 t4 a0 =
      { a0 with
          status := .completed
          progress := 100
          updatedAt := t4
          overallScore := (25 + rnd.r1 * 3 + rnd.r2 * 3.5 + rnd.r3 * 4 + rnd.r4 * 4.5) / 4
          recommendation := generateRecommendation
            ((25 + rnd.r1 * 3 + rnd.r2 * 3.5 + rnd.r3 * 4 + rnd.r4 * 4.5) / 4)
          keyMetrics := generateMockMetrics rnd.r1 rnd.r2 rnd.r3 rnd.r4
          insights := insightSets rnd.insightIdx
          risks := riskSets rnd.riskIdx
          completedAt := some t4 } := by
  simp [finalRecord, stages, applyStage_processing, applyStage_completed]

theorem analysisHistory_eq (rnd : RandSource) (t1 t2 t3 t4 : ℕ) (a0 : Analysis) :
    analysisHistory rnd t1 t2 t3 t4 a0 =
      [a0,
       applyStage rnd t1 a0 (.processing, 25),
       applyStage rnd t2 (applyStage rnd t1 a0 (.processing, 25)) (.processing, 50),
       applyStage rnd t3 (applyStage rnd t2 (applyStage rnd t1 a0 (.processing, 25))
         (.processing, 50)) (.processing, 75),
       applyStage rnd t4 (applyStage rnd t3 (applyStage rnd t2 (applyStage rnd t1 a0
         (.processing, 25)) (.processing, 50)) (.processing, 75)) (.completed, 100)] := by
  simp [analysisHistory, stages, List.scanl]

/-! ### Claim C2 -/

/-- C2: the recommendation is a pure, deterministic function of the
overall score given by contiguous inclusive-lower-bound bands: scores
≥ 8.5 get the Exceptional label, scores in [7.5, 8.5) the Strong label,
[6.5, 7.5) the Moderate label, [5.5, 6.5) the Caution label and scores
below 5.5 the High Risk label; the boundary values 8.5, 7.5, 6.5, 5.5
fall in the higher band. -/
theorem recommendation_bands (s : ℚ) :
    (8.5 ≤ s → generateRecommendation s = "Exceptional Investment Opportunity") ∧
    (7.5 ≤ s → s < 8.5 → generateRecommendation s = "Strong Investment Opportunity") ∧
    (6.5 ≤ s → s < 7.5 → generateRecommendation s = "Moderate Investment Potential") ∧
    (5.5 ≤ s → s < 6.5 → generateRecommendation s = "Proceed with Caution") ∧
    (s < 5.5 → generateRecommendation s = "High Risk Investment") := by
  unfold generateRecommendation
  refine ⟨fun h => ?_, fun h h2 => ?_, fun h h2 => ?_, fun h h2 => ?_, fun h => ?_⟩ <;>
    split_ifs <;> first | rfl | linarith

/-- Witness for C2 at the boundary score 8.5. -/
theorem recommendation_bands_witness :
    (8.5 : ℚ) ≤ 8.5 ∧ generateRecommendation 8.5 = "Exceptional Investment Opportunity" :=
  ⟨le_refl _, (recommendation_bands 8.5).1 (le_refl _)⟩

/-! ### Claims C1, C4, C5: StartAnalysis validation and creation -/

theorem firstMissingFile_cons (uploadedFiles : List String) (x : String)
    (xs : List String) :
    firstMissingFile uploadedFiles (x :: xs)
      = if uploadedFiles.contains x then firstMissingFile uploadedFiles xs
        else some x := rfl

theorem firstMissingFile_eq_some (uploadedFiles : List String) (l : List String)
    (f : String) (hf : f ∈ l) (hmiss : uploadedFiles.contains f = false) :
    ∃ g, g ∈ l ∧ uploadedFiles.contains g = false ∧
      firstMissingFile uploadedFiles l = some g := by
  induction l with
  | nil => cases hf
  | cons x xs ih =>
      cases hx : uploadedFiles.contains x with
      | false =>
          exact ⟨x, List.mem_cons_self _ _, hx, by rw [firstMissingFile_cons, hx]; simp⟩
      | true =>
          rcases List.mem_cons.mp hf with rfl | hfx
          · rw [hx] at hmiss; cases hmiss
          · obtain ⟨g, hg1, hg2, hg3⟩ := ih hfx
            exact ⟨g, List.mem_cons_of_mem _ hg1, hg2,
              by rw [firstMissingFile_cons, hx]; simpa using hg3⟩

theorem firstMissingFile_eq_none (uploadedFiles : List String) (l : List String)
    (h : ∀ f ∈ l, uploadedFiles.contains f = true) :
    firstMissingFile uploadedFiles l = none := by
  induction l with
  | nil => rfl
  | cons x xs ih =>
      rw [firstMissingFile_cons, h x (List.mem_cons_self _ _)]
      simpa using ih fun f hf => h f (List.mem_cons_of_mem _ hf)

/-- Counterexample to C1 as stated: with an empty company store and a
request for company `c9`, `StartAnalysis` responds with
`NotFoundResponse "Company"` (HTTP 404), not a `ValidationErrorResponse`
(HTTP 400); the `analyses` map is left unchanged. -/
theorem startAnalysis_unknownCompany_counterexample :
    (StartAnalysis [] ["f1"] [] ⟨"c9", ["f1"]⟩ "id1" 0).1
        = .error (.notFoundError "Company") ∧
    isValidationError (StartAnalysis [] ["f1"] [] ⟨"c9", ["f1"]⟩ "id1" 0).1 = false ∧
    (StartAnalysis [] ["f1"] [] ⟨"c9", ["f1"]⟩ "id1" 0).2 = [] :=
  ⟨rfl, rfl, rfl⟩

/-- C1 amended: for every StartAnalysis request whose company id does not
resolve to an existing company, the operation fails with `NotFoundError`
("Company") — not `ValidationError` — and no Analysis Record is created
(the registry is unchanged). -/
theorem startAnalysis_unknownCompany_notFound_noRecord
    (companies uploadedFiles : List String) (analyses : AReg)
    (req : StartAnalysisRequest) (newID : String) (now : ℕ)
    (h : companies.contains req.companyID = false) :
    StartAnalysis companies uploadedFiles analyses req newID now
      = (.error (.notFoundError "Company"), analyses) := by
  have h' : req.companyID ∉ companies := by simpa using h
  simp [StartAnalysis, h']

/-- Witness for the amended C1 at a concrete request. -/
theorem startAnalysis_unknownCompany_notFound_noRecord_witness :
    ([] : List String).contains "c9" = false ∧
    StartAnalysis [] ["f1"] [] ⟨"c9", ["f1"]⟩ "idA" 5
      = (.error (.notFoundError "Company"), []) :=
  ⟨rfl, startAnalysis_unknownCompany_notFound_noRecord [] ["f1"] [] ⟨"c9", ["f1"]⟩ "idA" 5 rfl⟩

/-- C4: for every StartAnalysis request in which at least one submitted
file id does not resolve (even when the company resolves and other file
ids are valid), the operation fails with `ValidationError` and no
Analysis Record is created — the registry returned is the unchanged one
(atomic validation, no partial creation). -/
theorem startAnalysis_invalidFile_validation_noRecord
    (companies uploadedFiles : List String) (analyses : AReg)
    (req : StartAnalysisRequest) (newID : String) (now : ℕ)
    (hc : companies.contains req.companyID = true)
    (f : String) (hf : f ∈ req.fileIDs) (hmiss : uploadedFiles.contains f = false) :
    ∃ g, g ∈ req.fileIDs ∧ uploadedFiles.contains g = false ∧
      StartAnalysis companies uploadedFiles analyses req newID now
        = (.error (.validationError ("File " ++ g ++ " not found")), analyses) := by
  have hc' : req.companyID ∈ companies := by simpa using hc
  obtain ⟨g, hg1, hg2, hg3⟩ := firstMissingFile_eq_some uploadedFiles req.fileIDs f hf hmiss
  exact ⟨g, hg1, hg2, by simp [StartAnalysis, hc', hg3]⟩

/-- Witness for C4: one invalid file id (`f2`) among valid ones. -/
theorem startAnalysis_invalidFile_validation_noRecord_witness :
    ["c1"].contains "c1" = true ∧ "f2" ∈ ["f1", "f2", "f3"] ∧
    ["f1", "f3"].contains "f2" = false ∧
    (∃ g, g ∈ (["f1", "f2", "f3"] : List String) ∧ ["f1", "f3"].contains g = false ∧
      StartAnalysis ["c1"] ["f1", "f3"] [] ⟨"c1", ["f1", "f2", "f3"]⟩ "idB" 5
        = (.error (.validationError ("File " ++ g ++ " not found")), [])) :=
  ⟨rfl, by simp, rfl,
   startAnalysis_invalidFile_validation_noRecord ["c1"] ["f1", "f3"] []
     ⟨"c1", ["f1", "f2", "f3"]⟩ "idB" 5 rfl "f2" (by simp) rfl⟩

/-- C5: for every StartAnalysis request whose company id and all file ids
resolve, the handler synchronously returns a freshly created record with
status pending, progress 0 and the newly generated id (not previously
bound in the registry), and that record is stored in the registry under
that id when the handler returns. -/
theorem startAnalysis_valid_creates_pending_record
    (companies uploadedFiles : List String) (analyses : AReg)
    (req : StartAnalysisRequest) (newID : String) (now : ℕ)
    (hc : companies.contains req.companyID = true)
    (hf : ∀ f ∈ req.fileIDs, uploadedFiles.contains f = true)
    (hfresh : lookupA analyses newID = none) :
    ∃ a : Analysis,
      StartAnalysis companies uploadedFiles analyses req newID now
        = (.ok a, insertA analyses newID a) ∧
      a.status = .pending ∧ a.progress = 0 ∧ a.id = newID ∧
      a.companyID = req.companyID ∧
      lookupA analyses a.id = none ∧
      lookupA (StartAnalysis companies uploadedFiles analyses req newID now).2 a.id
        = some a := by
  have hc' : req.companyID ∈ companies := by simpa using hc
  refine ⟨initialRecord newID req.companyID now, ?_, rfl, rfl, rfl, rfl, hfresh, ?_⟩
  · simp [StartAnalysis, hc', firstMissingFile_eq_none uploadedFiles req.fileIDs hf,
      initialRecord, insertA]
  · simp [StartAnalysis, hc', firstMissingFile_eq_none uploadedFiles req.fileIDs hf,
      initialRecord, insertA, lookupA]

/-- Witness for C5 at a concrete valid request. -/
theorem startAnalysis_valid_creates_pending_record_witness :
    ["c1"].contains "c1" = true ∧
    (∀ f ∈ (["f1", "f2"] : List String), ["f1", "f2"].contains f = true) ∧
    lookupA [] "a1" = none ∧
    (∃ a : Analysis,
      StartAnalysis ["c1"] ["f1", "f2"] [] ⟨"c1", ["f1", "f2"]⟩ "a1" 7
        = (.ok a, insertA [] "a1" a) ∧
      a.status = .pending ∧ a.progress = 0 ∧ a.id = "a1" ∧
      a.companyID = "c1" ∧
      lookupA [] a.id = none ∧
      lookupA (StartAnalysis ["c1"] ["f1", "f2"] [] ⟨"c1", ["f1", "f2"]⟩ "a1" 7).2 a.id
        = some a) :=
  ⟨rfl, by simp, rfl,
   startAnalysis_valid_creates_pending_record ["c1"] ["f1", "f2"] []
     ⟨"c1", ["f1", "f2"]⟩ "a1" 7 rfl (by simp) rfl⟩

/-! ### Claim C6: query operations -/

/-- C6: `GetAnalysis`, `GetAnalysisStatus` and `GetAnalysisReport` all
fail with `NotFoundError` on an id absent from the registry; on a present
id, `GetAnalysisReport` fails with `ValidationError` ("not completed yet")
whenever the record's status is not completed, and returns the full
current record when it is completed. -/
theorem get_operations_notFound_and_report_gating (analyses : AReg) (id : String) :
    (lookupA analyses id = none →
      GetAnalysis analyses id = .error (.notFoundError "Analysis") ∧
      GetAnalysisStatus analyses id = .error (.notFoundError "Analysis") ∧
      GetAnalysisReport analyses id = .error (.notFoundError "Analysis")) ∧
    (∀ a : Analysis, lookupA analyses id = some a →
      (a.status ≠ AnalysisStatus.completed →
        GetAnalysisReport analyses id
          = .error (.validationError "Analysis not completed yet")) ∧
      (a.status = AnalysisStatus.completed → GetAnalysisReport analyses id = .ok a)) := by
  constructor
  · intro h
    refine ⟨?_, ?_, ?_⟩ <;> simp [GetAnalysis, GetAnalysisStatus, GetAnalysisReport, h]
  · intro a h
    refine ⟨fun hs => ?_, fun hs => ?_⟩ <;> simp [GetAnalysisReport, h, hs]

/-- A pending record and a completed record used to instantiate C6. -/
def pendingRec : Analysis := initialRecord "p1" "c1" 0

def completedRec : Analysis := finalRecord rnd0 1 2 3 4 (initialRecord "q1" "c1" 0)

/-- Witness for C6: an absent id, a pending record, a completed record. -/
theorem get_operations_notFound_and_report_gating_witness :
    (GetAnalysis [] "zz" = .error (.notFoundError "Analysis") ∧
     GetAnalysisStatus [] "zz" = .error (.notFoundError "Analysis") ∧
     GetAnalysisReport [] "zz" = .error (.notFoundError "Analysis")) ∧
    GetAnalysisReport [("p1", pendingRec)] "p1"
      = .error (.validationError "Analysis not completed yet") ∧
    GetAnalysisReport [("q1", completedRec)] "q1" = .ok completedRec := by
  refine ⟨(get_operations_notFound_and_report_gating [] "zz").1 rfl, ?_, ?_⟩
  · exact ((get_operations_notFound_and_report_gating [("p1", pendingRec)] "p1").2
      pendingRec rfl).1 (by decide)
  · exact ((get_operations_notFound_and_report_gating [("q1", completedRec)] "q1").2
      completedRec rfl).2 rfl

/-! ### Claims C3, C10: the completed record's scores and metrics -/

theorem generateMockMetrics_value_bounds (r1 r2 r3 r4 : ℚ)
    (h1 : 0 ≤ r1) (h1' : r1 < 1) (h2 : 0 ≤ r2) (h2' : r2 < 1)
    (h3 : 0 ≤ r3) (h3' : r3 < 1) (h4 : 0 ≤ r4) (h4' : r4 < 1) :
    ∀ m ∈ generateMockMetrics r1 r2 r3 r4, 5.5 ≤ m.value ∧ m.value ≤ 10 := by
  intro m hm
  simp only [generateMockMetrics, List.map_cons, List.map_nil, List.mem_cons,
    List.not_mem_nil, or_false] at hm
  rcases hm with rfl | rfl | rfl | rfl <;> constructor <;> simp <;> linarith

theorem generateRecommendation_ne_highRisk (s : ℚ) (h : 5.5 ≤ s) :
    generateRecommendation s ≠ "High Risk Investment" := by
  unfold generateRecommendation
  split_ifs <;> first | simp | linarith

/-- C3: for every analysis run that reaches completed, `key_metrics`
holds exactly four metrics, `overall_score` equals the arithmetic mean of
exactly those four metric values, and `overall_score` lies in [0, 10].
The four `rand.Float64()` draws lie in [0, 1). -/
theorem completed_overallScore_mean_of_four_metrics
    (rnd : RandSource) (t0 t1 t2 t3 t4 : ℕ) (id cid : String)
    (h1 : 0 ≤ rnd.r1) (h1' : rnd.r1 < 1) (h2 : 0 ≤ rnd.r2) (h2' : rnd.r2 < 1)
    (h3 : 0 ≤ rnd.r3) (h3' : rnd.r3 < 1) (h4 : 0 ≤ rnd.r4) (h4' : rnd.r4 < 1) :
    (finalRecord rnd t1 t2 t3 t4 (initialRecord id cid t0)).status
        = AnalysisStatus.completed ∧
    (finalRecord rnd t1 t2 t3 t4 (initialRecord id cid t0)).keyMetrics.length = 4 ∧
    (finalRecord rnd t1 t2 t3 t4 (initialRecord id cid t0)).overallScore
      = ((finalRecord rnd t1 t2 t3 t4 (initialRecord id cid t0)).keyMetrics.map
          Metric.value).sum / 4 ∧
    0 ≤ (finalRecord rnd t1 t2 t3 t4 (initialRecord id cid t0)).overallScore ∧
    (finalRecord rnd t1 t2 t3 t4 (initialRecord id cid t0)).overallScore ≤ 10 := by
  rw [finalRecord_eq]
  refine ⟨rfl, ?_, ?_, ?_, ?_⟩
  · simpa using generateMockMetrics_length rnd.r1 rnd.r2 rnd.r3 rnd.r4
  · simp only [generateMockMetrics_values]
    simp [List.sum_cons]
    ring
  · simp only []
    show (0 : ℚ) ≤ (25 + rnd.r1 * 3 + rnd.r2 * 3.5 + rnd.r3 * 4 + rnd.r4 * 4.5) / 4
    linarith
  · show (25 + rnd.r1 * 3 + rnd.r2 * 3.5 + rnd.r3 * 4 + rnd.r4 * 4.5) / 4 ≤ (10 : ℚ)
    linarith

/-- Witness for C3: the run with all randomness draws equal to 0. -/
theorem completed_overallScore_mean_of_four_metrics_witness :
    (0 : ℚ) ≤ 0 ∧ (0 : ℚ) < 1 ∧
    ((finalRecord rnd0 1 2 3 4 (initialRecord "a1" "c1" 0)).status
        = AnalysisStatus.completed ∧
     (finalRecord rnd0 1 2 3 4 (initialRecord "a1" "c1" 0)).keyMetrics.length = 4 ∧
     (finalRecord rnd0 1 2 3 4 (initialRecord "a1" "c1" 0)).overallScore
       = ((finalRecord rnd0 1 2 3 4 (initialRecord "a1" "c1" 0)).keyMetrics.map
           Metric.value).sum / 4 ∧
     0 ≤ (finalRecord rnd0 1 2 3 4 (initialRecord "a1" "c1" 0)).overallScore ∧
     (finalRecord rnd0 1 2 3 4 (initialRecord "a1" "c1" 0)).overallScore ≤ 10) :=
  ⟨le_refl 0, by norm_num,
   completed_overallScore_mean_of_four_metrics rnd0 0 1 2 3 4 "a1" "c1"
     (le_refl 0) (by norm_num [rnd0]) (le_refl 0) (by norm_num [rnd0])
     (le_refl 0) (by norm_num [rnd0]) (le_refl 0) (by norm_num [rnd0])⟩

/-- C10: at completion each of the four generated metric values lies in
[5.5, 10], so the overall score lies in [6.25, 10] and the recommendation
is never the High Risk label. -/
theorem completed_never_high_risk
    (rnd : RandSource) (t0 t1 t2 t3 t4 : ℕ) (id cid : String)
    (h1 : 0 ≤ rnd.r1) (h1' : rnd.r1 < 1) (h2 : 0 ≤ rnd.r2) (h2' : rnd.r2 < 1)
    (h3 : 0 ≤ rnd.r3) (h3' : rnd.r3 < 1) (h4 : 0 ≤ rnd.r4) (h4' : rnd.r4 < 1) :
    (∀ m ∈ (finalRecord rnd t1 t2 t3 t4 (initialRecord id cid t0)).keyMetrics,
        5.5 ≤ m.value ∧ m.value ≤ 10) ∧
    6.25 ≤ (finalRecord rnd t1 t2 t3 t4 (initialRecord id cid t0)).overallScore ∧
    (finalRecord rnd t1 t2 t3 t4 (initialRecord id cid t0)).overallScore ≤ 10 ∧
    (finalRecord rnd t1 t2 t3 t4 (initialRecord id cid t0)).recommendation
      ≠ "High Risk Investment" := by
  rw [finalRecord_eq]
  refine ⟨?_, ?_, ?_, ?_⟩
  · simpa using generateMockMetrics_value_bounds rnd.r1 rnd.r2 rnd.r3 rnd.r4
      h1 h1' h2 h2' h3 h3' h4 h4'
  · show (6.25 : ℚ) ≤ (25 + rnd.r1 * 3 + rnd.r2 * 3.5 + rnd.r3 * 4 + rnd.r4 * 4.5) / 4
    linarith
  · show (25 + rnd.r1 * 3 + rnd.r2 * 3.5 + rnd.r3 * 4 + rnd.r4 * 4.5) / 4 ≤ (10 : ℚ)
    linarith
  · exact generateRecommendation_ne_highRisk _ (by linarith)

/-- Witness for C10: the run with all randomness draws equal to 0. -/
theorem completed_never_high_risk_witness :
    (0 : ℚ) ≤ 0 ∧ (0 : ℚ) < 1 ∧
    ((∀ m ∈ (finalRecord rnd0 1 2 3 4 (initialRecord "a1" "c1" 0)).keyMetrics,
        5.5 ≤ m.value ∧ m.value ≤ 10) ∧
     6.25 ≤ (finalRecord rnd0 1 2 3 4 (initialRecord "a1" "c1" 0)).overallScore ∧
     (finalRecord rnd0 1 2 3 4 (initialRecord "a1" "c1" 0)).overallScore ≤ 10 ∧
     (finalRecord rnd0 1 2 3 4 (initialRecord "a1" "c1" 0)).recommendation
       ≠ "High Risk Investment") :=
  ⟨le_refl 0, by norm_num,
   completed_never_high_risk rnd0 0 1 2 3 4 "a1" "c1"
     (le_refl 0) (by norm_num [rnd0]) (le_refl 0) (by norm_num [rnd0])
     (le_refl 0) (by norm_num [rnd0]) (le_refl 0) (by norm_num [rnd0])⟩

/-! ### Claim C7: progress monotonicity -/

theorem finalRecord_as_last_stage (rnd : RandSource) (t1 t2 t3 t4 : ℕ) (a0 : Analysis) :
    finalRecord rnd t1 t2 t3 t4 a0
      = applyStage rnd t4 (applyStage rnd t3 (applyStage rnd t2 (applyStage rnd t1 a0
          (.processing, 25)) (.processing, 50)) (.processing, 75)) (.completed, 100) := rfl

/-- C7: over the sequence of values written to the registry for one
analysis (its creation write followed by the four stage writes of its
single scheduler task), progress is monotonically non-decreasing, and a
written record has progress exactly 100 if and only if its status is
completed. -/
theorem progress_monotone_and_hundred_iff_completed
    (rnd : RandSource) (t0 t1 t2 t3 t4 : ℕ) (id cid : String) :
    List.Chain' (fun p q => p ≤ q)
      ((analysisHistory rnd t1 t2 t3 t4 (initialRecord id cid t0)).map
        Analysis.progress) ∧
    ∀ a ∈ analysisHistory rnd t1 t2 t3 t4 (initialRecord id cid t0),
      (a.progress = 100 ↔ a.status = AnalysisStatus.completed) := by
  rw [analysisHistory_eq]
  simp only [applyStage_processing, applyStage_completed, initialRecord]
  constructor
  · simp [List.Chain']
  · intro a ha
    simp only [List.mem_cons, List.not_mem_nil, or_false] at ha
    rcases ha with rfl | rfl | rfl | rfl | rfl <;> simp

/-- Witness for C7: in the all-zero-randomness run, the created record is
in the history and satisfies the progress/status biconditional. -/
theorem progress_monotone_and_hundred_iff_completed_witness :
    (initialRecord "a1" "c1" 0)
        ∈ analysisHistory rnd0 1 2 3 4 (initialRecord "a1" "c1" 0) ∧
    ((initialRecord "a1" "c1" 0).progress = 100
      ↔ (initialRecord "a1" "c1" 0).status = AnalysisStatus.completed) := by
  have hmem : (initialRecord "a1" "c1" 0)
      ∈ analysisHistory rnd0 1 2 3 4 (initialRecord "a1" "c1" 0) := by
    rw [analysisHistory_eq]; exact List.mem_cons_self _ _
  exact ⟨hmem,
    (progress_monotone_and_hundred_iff_completed rnd0 0 1 2 3 4 "a1" "c1").2 _ hmem⟩

/-! ### Claim C8: result fields before and at completion -/

/-- JSON serialization presence of `overall_score`: the Go struct tag
`json:"overall_score"` carries no `omitempty`, so the field is emitted for
every record, with whatever numeric value it currently holds. -/
def overallScoreSerialized (a : Analysis) : Option ℚ := some a.overallScore

/-- Modelled from the spec: the result fields are "unset (absent/empty,
not zero-valued)" — `recommendation`, `key_metrics`, `insights` and
`risks` are empty and the numeric `overall_score` is absent from the
serialized record rather than present with a zero value. -/
def resultFieldsUnset (a : Analysis) : Prop :=
  overallScoreSerialized a = none ∧ a.recommendation = "" ∧
  a.keyMetrics = [] ∧ a.insights = [] ∧ a.risks = []

/-- Counterexample to C8 as stated: the freshly created record has status
pending (not completed), yet its `overall_score` is present and
zero-valued — `some 0`, not absent — because the Go struct field is a
plain `float64` serialized without `omitempty`. -/
theorem pending_overallScore_zero_valued_counterexample :
    (initialRecord "a1" "c1" 0).status ≠ AnalysisStatus.completed ∧
    overallScoreSerialized (initialRecord "a1" "c1" 0) = some 0 ∧
    ¬ resultFieldsUnset (initialRecord "a1" "c1" 0) := by
  refine ⟨by decide, rfl, fun h => ?_⟩
  exact Option.noConfusion h.1

/-- C8 amended: until completion the result fields hold their Go zero
values — `overall_score` is present with value 0, `recommendation` is the
empty string, `key_metrics`, `insights` and `risks` are empty — and the
only write carrying the completed results is the scheduler's final write,
after which the record is never written again. -/
theorem result_fields_zero_until_completion
    (rnd : RandSource) (t0 t1 t2 t3 t4 : ℕ) (id cid : String) :
    (∀ a ∈ analysisHistory rnd t1 t2 t3 t4 (initialRecord id cid t0),
        a.status ≠ AnalysisStatus.completed →
          overallScoreSerialized a = some 0 ∧ a.recommendation = "" ∧
          a.keyMetrics = [] ∧ a.insights = [] ∧ a.risks = []) ∧
    (∀ a ∈ analysisHistory rnd t1 t2 t3 t4 (initialRecord id cid t0),
        a.status = AnalysisStatus.completed →
          a = finalRecord rnd t1 t2 t3 t4 (initialRecord id cid t0)) ∧
    (analysisHistory rnd t1 t2 t3 t4 (initialRecord id cid t0)).getLast?
      = some (finalRecord rnd t1 t2 t3 t4 (initialRecord id cid t0)) := by
  rw [analysisHistory_eq, finalRecord_as_last_stage]
  refine ⟨?_, ?_, ?_⟩
  · intro a ha _
    simp only [applyStage_processing, applyStage_completed, initialRecord,
      List.mem_cons, List.not_mem_nil, or_false] at ha
    rcases ha with rfl | rfl | rfl | rfl | rfl <;>
      simp [overallScoreSerialized, applyStage_processing, applyStage_completed,
        initialRecord] at *
  · intro a ha hc
    simp only [List.mem_cons, List.not_mem_nil, or_false] at ha
    rcases ha with rfl | rfl | rfl | rfl | rfl
    · exfalso; revert hc; simp [initialRecord]
    · exfalso; revert hc; simp [applyStage_processing]
    · exfalso; revert hc; simp [applyStage_processing]
    · exfalso; revert hc; simp [applyStage_processing]
    · rfl
  · rfl

/-- Witness for the amended C8: in the all-zero-randomness run, the
freshly created (pending) record carries zero-valued result fields. -/
theorem result_fields_zero_until_completion_witness :
    (initialRecord "a1" "c1" 0) ∈ analysisHistory rnd0 1 2 3 4 (initialRecord "a1" "c1" 0) ∧
    (initialRecord "a1" "c1" 0).status ≠ AnalysisStatus.completed ∧
    (overallScoreSerialized (initialRecord "a1" "c1" 0) = some 0 ∧
     (initialRecord "a1" "c1" 0).recommendation = "" ∧
     (initialRecord "a1" "c1" 0).keyMetrics = [] ∧
     (initialRecord "a1" "c1" 0).insights = [] ∧
     (initialRecord "a1" "c1" 0).risks = []) := by
  have hmem : (initialRecord "a1" "c1" 0)
      ∈ analysisHistory rnd0 1 2 3 4 (initialRecord "a1" "c1" 0) := by
    rw [analysisHistory_eq]; exact List.mem_cons_self _ _
  exact ⟨hmem, by decide,
    (result_fields_zero_until_completion rnd0 0 1 2 3 4 "a1" "c1").1 _ hmem (by decide)⟩

/-! ### Claim C9: atomicity of registry mutations -/

/-- The read phase of one `simulateAnalysisProcessing` loop iteration:
`analysis := analyses[analysisID]`, a plain read of the shared map. -/
def schedulerLoad (analyses : AReg) (id : String) : Option Analysis :=
  lookupA analyses id

/-- The write-back phase: `analyses[analysisID] = analysis`, a plain
write of the locally mutated copy to the shared map. -/
def schedulerStore (analyses : AReg) (id : String) (a : Analysis) : AReg :=
  insertA analyses id a

/-- One scheduler loop iteration with a concurrent registry mutation
`interference` landing between its read and its write-back — an
interleaving the source admits because the read and the write are
separate operations on the global `analyses` map with no lock held. -/
def interleavedStep (rnd : RandSource) (now : ℕ) (analyses : AReg) (id : String)
    (st : AnalysisStatus × ℤ) (interference : AReg → AReg) : AReg :=
  match schedulerLoad analyses id with
  | some a => schedulerStore (interference analyses) id (applyStage rnd now a st)
  | none => interference analyses

/-- The same iteration applied atomically after the interfering write:
the serialization an atomic read-modify-write registry would enforce. -/
def atomicStep (rnd : RandSource) (now : ℕ) (analyses : AReg) (id : String)
    (st : AnalysisStatus × ℤ) : AReg :=
  match schedulerLoad analyses id with
  | some a => schedulerStore analyses id (applyStage rnd now a st)
  | none => analyses

/-- C9 demonstration at a concrete input: the scheduler's loop iteration
is a read followed by a separate write-back, so a concurrent update of
the same record landing in between (here: an update storing
`overall_score = 3`) is discarded wholesale; an atomic read-modify-write
serialization would preserve it.  The two executions leave different
records in the registry — the code's read/mutate-local/write-back is not
the single atomic operation the claim asserts. -/
theorem scheduler_rmw_loses_interleaved_update :
    lookupA (interleavedStep rnd0 5 [("a1", initialRecord "a1" "c1" 0)] "a1"
        (AnalysisStatus.processing, 25)
        (fun m => insertA m "a1" { initialRecord "a1" "c1" 0 with overallScore := 3 })) "a1"
      = some { initialRecord "a1" "c1" 0 with
                 status := .processing
                 progress := 25
                 updatedAt := 5 } ∧
    lookupA (atomicStep rnd0 5
        (insertA [("a1", initialRecord "a1" "c1" 0)] "a1"
          { initialRecord "a1" "c1" 0 with overallScore := 3 }) "a1"
        (AnalysisStatus.processing, 25)) "a1"
      = some { initialRecord "a1" "c1" 0 with
                 status := .processing
                 progress := 25
                 updatedAt := 5
                 overallScore := 3 } ∧
    lookupA (interleavedStep rnd0 5 [("a1", initialRecord "a1" "c1" 0)] "a1"
        (AnalysisStatus.processing, 25)
        (fun m => insertA m "a1" { initialRecord "a1" "c1" 0 with overallScore := 3 })) "a1"
      ≠ lookupA (atomicStep rnd0 5
        (insertA [("a1", initialRecord "a1" "c1" 0)] "a1"
          { initialRecord "a1" "c1" 0 with overallScore := 3 }) "a1"
        (AnalysisStatus.processing, 25)) "a1" := by
  refine ⟨rfl, rfl, fun h => ?_⟩
  have h2 : ((0 : ℚ) : Option ℚ).isSome := rfl
  rw [show lookupA (interleavedStep rnd0 5 [("a1", initialRecord "a1" "c1" 0)] "a1"
        (AnalysisStatus.processing, 25)
        (fun m => insertA m "a1" { initialRecord "a1" "c1" 0 with overallScore := 3 })) "a1"
      = some { initialRecord "a1" "c1" 0 with
                 status := .processing
                 progress := 25
                 updatedAt := 5 } from rfl,
      show lookupA (atomicStep rnd0 5
        (insertA [("a1", initialRecord "a1" "c1" 0)] "a1"
          { initialRecord "a1" "c1" 0 with overallScore := 3 }) "a1"
        (AnalysisStatus.processing, 25)) "a1"
      = some { initialRecord "a1" "c1" 0 with
                 status := .processing
                 progress := 25
                 updatedAt := 5
                 overallScore := 3 } from rfl] at h
  have h3 := congrArg (fun o => (Option.map Analysis.overallScore o).getD 7) h
  simp [initialRecord] at h3

end Liora
